import Mathlib

/-!
Shallow embedding of `uploader_lambda/app.py` (the TennisBuddies YouTube
uploader Lambda) and proofs about it.

The embedding models each Python function of the source as a Lean function.
External collaborators (S3, Secrets Manager, ffmpeg, the YouTube resumable
upload endpoint, the webhook endpoint, `os.remove`) are oracles: a `World`
record fixes the outcome every external call would produce during one
invocation.  Observable side effects (network calls, scratch-file creation
and removal) are threaded through an explicit state `St` holding the set of
scratch files in existence and the ordered list of external calls made.
Machine integers do not occur; byte values are `Nat` below 256 and the
HMAC-SHA256 used for webhook signing is implemented concretely on `Nat`
words reduced modulo 2^32.
-/

set_option maxRecDepth 100000

namespace Uploader

/-- Python exceptions distinguished by the handler's behaviour. -/
inductive PyErr where
  | typeError
  | clientError (msg : String)
  | generic (msg : String)
  deriving Repr, DecidableEq

/-- `str(e)` for the exception values we track (`TypeError` text is the one
CPython produces for `os.path.basename(None)`). -/
def errMsg : PyErr → String
  | .typeError => "expected str, bytes or os.PathLike object, not NoneType"
  | .clientError m => m
  | .generic m => m

/-- Python truthiness of an optional string (`None` and `""` are falsy). -/
def truthy : Option String → Bool
  | none => false
  | some s => s ≠ ""

deriving instance DecidableEq for Except

/-- `os.path.basename` on a genuine string: the part after the last slash
(`p[p.rfind('/') + 1:]`), computed by a fold that restarts at every
slash so that it reduces in the kernel. -/
def basenameStr (p : String) : String :=
  ⟨p.data.foldl (fun acc c => if c = '/' then [] else acc ++ [c]) []⟩

/-- `os.path.basename` applied to a value that may be `None`: CPython raises
`TypeError` from `os.fspath(None)` before looking at the path. -/
def pyBasename : Option String → Except PyErr String
  | none => .error .typeError
  | some s => .ok (basenameStr s)

/-! ## Bytes, UTF-8, JSON serialization (as `json.dumps` produces it) -/

/-- UTF-8 encoding of one code point, as a list of byte values. -/
def utf8Char (c : Char) : List Nat :=
  let n := c.toNat
  if n < 128 then [n]
  else if n < 2048 then [192 + n / 64, 128 + n % 64]
  else if n < 65536 then [224 + n / 4096, 128 + n / 64 % 64, 128 + n % 64]
  else [240 + n / 262144, 128 + n / 4096 % 64, 128 + n / 64 % 64, 128 + n % 64]

/-- UTF-8 encoding of a string (`str.encode('utf-8')`). -/
def utf8 (s : String) : List Nat :=
  (s.data.map utf8Char).flatten

/-- Lower-case hexadecimal digit. -/
def hexDigit (n : Nat) : Char :=
  if n < 10 then Char.ofNat (48 + n) else Char.ofNat (87 + n)

/-- `\uXXXX` escape used by `json.dumps` (ensure_ascii) for one 16-bit unit. -/
def u4 (n : Nat) : String :=
  ⟨['\\', 'u', hexDigit (n / 4096 % 16), hexDigit (n / 256 % 16),
    hexDigit (n / 16 % 16), hexDigit (n % 16)]⟩

/-- One character as `json.dumps` (default `ensure_ascii=True`) emits it:
characters outside 0x20..0x7e are escaped, with the usual shorthands. -/
def jsonEscapeChar (c : Char) : String :=
  if c = '"' then "\\\""
  else if c = '\\' then "\\\\"
  else if c = '\n' then "\\n"
  else if c = '\r' then "\\r"
  else if c = '\t' then "\\t"
  else if c.toNat = 8 then "\\b"
  else if c.toNat = 12 then "\\f"
  else if 32 ≤ c.toNat ∧ c.toNat ≤ 126 then String.singleton c
  else if c.toNat ≤ 65535 then u4 c.toNat
  else
    let v := c.toNat - 65536
    u4 (55296 + v / 1024) ++ u4 (56320 + v % 1024)

/-- A JSON string literal as `json.dumps` emits it. -/
def jsonStr (s : String) : String :=
  "\"" ++ String.join (s.data.map jsonEscapeChar) ++ "\""

/-- A nullable JSON string. -/
def jsonOptStr : Option String → String
  | none => "null"
  | some s => jsonStr s

/-- A nullable JSON integer. -/
def jsonOptInt : Option Int → String
  | none => "null"
  | some n => toString n

/-- `json.dumps(webhook_payload)` for the webhook payload dict, with
CPython's default separators `", "` and `": "` and insertion order. -/
def webhookPayloadJson (videoId : String) (thumbnailUrl : Option String)
    (duration : Option Int) : String :=
  "\x7b\"youtube_video_id\": " ++ jsonStr videoId
    ++ ", \"thumbnail_url\": " ++ jsonOptStr thumbnailUrl
    ++ ", \"duration\": " ++ jsonOptInt duration ++ "\x7d"

/-! ## HMAC-SHA256 (the `hmac.new(..., hashlib.sha256).hexdigest()` call) -/

/-- 2^32, the word modulus of SHA-256. -/
def w32 : Nat := 4294967296

/-- Addition modulo 2^32. -/
def add32 (a b : Nat) : Nat := (a + b) % w32

/-- Bitwise complement within 32 bits (arguments are below 2^32). -/
def not32 (a : Nat) : Nat := Nat.xor a 4294967295

/-- Rotate a 32-bit word right by `n` (for `x < 2^32`, `n ≤ 32`). -/
def rotr (n x : Nat) : Nat := x / 2 ^ n + x % 2 ^ n * 2 ^ (32 - n)

/-- Logical shift right. -/
def shr (n x : Nat) : Nat := x / 2 ^ n

/-- SHA-256 σ0. -/
def ssig0 (x : Nat) : Nat := Nat.xor (rotr 7 x) (Nat.xor (rotr 18 x) (shr 3 x))

/-- SHA-256 σ1. -/
def ssig1 (x : Nat) : Nat := Nat.xor (rotr 17 x) (Nat.xor (rotr 19 x) (shr 10 x))

/-- SHA-256 Σ0. -/
def bsig0 (x : Nat) : Nat := Nat.xor (rotr 2 x) (Nat.xor (rotr 13 x) (rotr 22 x))

/-- SHA-256 Σ1. -/
def bsig1 (x : Nat) : Nat := Nat.xor (rotr 6 x) (Nat.xor (rotr 11 x) (rotr 25 x))

/-- SHA-256 Ch. -/
def ch (x y z : Nat) : Nat := Nat.xor (Nat.land x y) (Nat.land (not32 x) z)

/-- SHA-256 Maj. -/
def maj (x y z : Nat) : Nat :=
  Nat.xor (Nat.land x y) (Nat.xor (Nat.land x z) (Nat.land y z))

/-- The 64 SHA-256 round constants (FIPS 180-4, written in decimal). -/
def sha256K : List Nat :=
  [1116352408, 1899447441, 3049323471, 3921009573,
   961987163, 1508970993, 2453635748, 2870763221,
   3624381080, 310598401, 607225278, 1426881987,
   1925078388, 2162078206, 2614888103, 3248222580,
   3835390401, 4022224774, 264347078, 604807628,
   770255983, 1249150122, 1555081692, 1996064986,
   2554220882, 2821834349, 2952996808, 3210313671,
   3336571891, 3584528711, 113926993, 338241895,
   666307205, 773529912, 1294757372, 1396182291,
   1695183700, 1986661051, 2177026350, 2456956037,
   2730485921, 2820302411, 3259730800, 3345764771,
   3516065817, 3600352804, 4094571909, 275423344,
   430227734, 506948616, 659060556, 883997877,
   958139571, 1322822218, 1537002063, 1747873779,
   1955562222, 2024104815, 2227730452, 2361852424,
   2428436474, 2756734187, 3204031479, 3329325298]

/-- The eight SHA-256 initial hash words (FIPS 180-4, written in decimal). -/
def sha256H0 : List Nat :=
  [1779033703, 3144134277, 1013904242, 2773480762,
   1359893119, 2600822924, 528734635, 1541459225]

/-- Append the next message-schedule word. -/
def extendStep (ws : List Nat) : List Nat :=
  let t := ws.length
  ws ++ [add32 (add32 (ssig1 (ws.getD (t - 2) 0)) (ws.getD (t - 7) 0))
          (add32 (ssig0 (ws.getD (t - 15) 0)) (ws.getD (t - 16) 0))]

/-- Iterate `extendStep`. -/
def extendMany : Nat → List Nat → List Nat
  | 0, ws => ws
  | n + 1, ws => extendMany n (extendStep ws)

/-- Working state of one compression: the words a..h. -/
structure Hash8 where
  a : Nat
  b : Nat
  c : Nat
  d : Nat
  e : Nat
  f : Nat
  g : Nat
  h : Nat
  deriving Repr, DecidableEq

/-- One SHA-256 round. -/
def sha256Round (s : Hash8) (kw : Nat × Nat) : Hash8 :=
  let t1 := add32 s.h (add32 (bsig1 s.e) (add32 (ch s.e s.f s.g) (add32 kw.1 kw.2)))
  let t2 := add32 (bsig0 s.a) (maj s.a s.b s.c)
  ⟨add32 t1 t2, s.a, s.b, s.c, add32 s.d t1, s.e, s.f, s.g⟩

/-- Compress one 16-word block into the running hash (given as 8 words). -/
def sha256Compress (hw : List Nat) (block : List Nat) : List Nat :=
  let ws := extendMany 48 block
  let s0 : Hash8 := ⟨hw.getD 0 0, hw.getD 1 0, hw.getD 2 0, hw.getD 3 0,
                     hw.getD 4 0, hw.getD 5 0, hw.getD 6 0, hw.getD 7 0⟩
  let s := (sha256K.zip ws).foldl sha256Round s0
  [add32 (hw.getD 0 0) s.a, add32 (hw.getD 1 0) s.b, add32 (hw.getD 2 0) s.c,
   add32 (hw.getD 3 0) s.d, add32 (hw.getD 4 0) s.e, add32 (hw.getD 5 0) s.f,
   add32 (hw.getD 6 0) s.g, add32 (hw.getD 7 0) s.h]

/-- Big-endian byte decomposition of a value into `n` bytes. -/
def beBytes : Nat → Nat → List Nat
  | 0, _ => []
  | n + 1, v => beBytes n (v / 256) ++ [v % 256]

/-- SHA-256 padding: 0x80, zeros to 56 mod 64, 8-byte big-endian bit length. -/
def padMessage (msg : List Nat) : List Nat :=
  let padZeros := (55 + 64 - msg.length % 64) % 64
  msg ++ [128] ++ List.replicate padZeros 0 ++ beBytes 8 (msg.length * 8)

/-- Group bytes into big-endian 32-bit words. -/
def toWords : List Nat → List Nat
  | b0 :: b1 :: b2 :: b3 :: rest =>
    (((b0 * 256 + b1) * 256 + b2) * 256 + b3) :: toWords rest
  | _ => []

/-- Group words into 16-word blocks (fuel-driven so that it reduces by
structural recursion; the fuel is the list length, ample since every step
consumes 16 words). -/
def toBlocksAux : Nat → List Nat → List (List Nat)
  | 0, _ => []
  | _, [] => []
  | fuel + 1, wd :: rest => (wd :: rest).take 16 :: toBlocksAux fuel ((wd :: rest).drop 16)

/-- Group words into 16-word blocks. -/
def toBlocks (ws : List Nat) : List (List Nat) :=
  toBlocksAux ws.length ws

/-- SHA-256 of a byte list, as 32 digest bytes. -/
def sha256 (msg : List Nat) : List Nat :=
  let blocks := toBlocks (toWords (padMessage msg))
  let hw := blocks.foldl sha256Compress sha256H0
  (hw.map (beBytes 4)).flatten

/-- HMAC-SHA256 over byte lists (block size 64; long keys are hashed). -/
def hmacSha256 (key msg : List Nat) : List Nat :=
  let k0 := if key.length > 64 then sha256 key else key
  let k := k0 ++ List.replicate (64 - k0.length) 0
  let ipadKey := k.map (Nat.xor 54)
  let opadKey := k.map (Nat.xor 92)
  sha256 (opadKey ++ sha256 (ipadKey ++ msg))

/-- Two lower-case hex digits of a byte. -/
def hexByte (b : Nat) : String := ⟨[hexDigit (b / 16), hexDigit (b % 16)]⟩

/-- Lower-case hex of a byte list (`.hexdigest()`). -/
def hexOfBytes (bs : List Nat) : String := String.join (bs.map hexByte)

/-- `hmac.new(secret.encode('utf-8'), payload.encode('utf-8'),
hashlib.sha256).hexdigest()`. -/
def hmacSha256Hex (secret payload : String) : String :=
  hexOfBytes (hmacSha256 (utf8 secret) (utf8 payload))

/-! ## Observable effects and scratch-file state -/

/-- One observable external call made during the invocation. -/
inductive Effect where
  | headObject (bucket key : String)
  | downloadFile (bucket key : String)
  | ffprobe (path : String)
  | ffmpegExtract (src dst : String) (offsetSec : ℚ)
  | s3Upload (bucket key : String)
  | secretsGet (secretId : String)
  | secretsPut (secretId : String)
  | tokenRefresh
  | videosInsert (filepath title description privacyStatus : String)
  | nextChunk
  | webhookPost (url : String) (headers : List (String × String)) (body : String)
  | removeFile (path : String)
  deriving Repr, DecidableEq

/-- Scratch filesystem contents plus the ordered trace of external calls. -/
structure St where
  fs : List String
  effects : List Effect
  deriving Repr, DecidableEq

/-- The state at handler entry: no scratch files, no calls yet. -/
def St.init : St := ⟨[], []⟩

/-- Record an external call. -/
def emit (e : Effect) (st : St) : St := { st with effects := st.effects ++ [e] }

/-- A scratch file comes into existence. -/
def touch (p : String) (st : St) : St := { st with fs := st.fs ++ [p] }

/-- `os.remove`: the scratch file ceases to exist. -/
def rm (p : String) (st : St) : St := { st with fs := st.fs.filter (fun q => q != p) }

/-! ## ffprobe data model -/

/-- One stream of an `ffmpeg.probe` result; the duration, when present, is
the exact rational value of the decimal string ffprobe reports. -/
structure ProbeStream where
  codecType : String
  duration : Option ℚ
  deriving Repr, DecidableEq

/-- An `ffmpeg.probe` result: the stream list and the container-level
(`probe['format']`) duration, when present. -/
structure ProbeData where
  streams : List ProbeStream
  formatDuration : Option ℚ
  deriving Repr, DecidableEq

/-- `next((s for s in probe['streams'] if s['codec_type'] == 'video'), None)`. -/
def firstVideoStream (streams : List ProbeStream) : Option ProbeStream :=
  streams.find? (fun s => s.codecType == "video")

/-- The duration in milliseconds that `get_video_duration` derives from a
probe outcome: the first video stream's duration, else the format duration,
converted by `int(duration_sec * 1000)` (truncation; durations are
non-negative so this is the floor); `none` on a probe error, a missing
video stream, or a missing duration. -/
def probedDurationMs : Except PyErr ProbeData → Option Int
  | .error _ => none
  | .ok probe =>
    match firstVideoStream probe.streams with
    | none => none
    | some vs =>
      match vs.duration with
      | some d => some (d * 1000).floor
      | none =>
        match probe.formatDuration with
        | some d => some (d * 1000).floor
        | none => none

/-- `get_video_duration(video_path)`: one ffprobe call, every failure caught
and mapped to `None` — it never raises. -/
def getVideoDuration (probeResult : Except PyErr ProbeData) (videoPath : String)
    (st : St) : Option Int × St :=
  (probedDurationMs probeResult, emit (.ffprobe videoPath) st)

/-! ## Thumbnail generation and S3 upload -/

/-- The scratch path `/tmp/{uuid4()}.jpg` chosen for the thumbnail. -/
def thumbFile (thumbName : String) : String := "/tmp/" ++ thumbName ++ ".jpg"

/-- `generate_thumbnail(video_path, duration_ms)`.  Oracles: `thumbName` is
the uuid chosen for this invocation, `probeResult` the outcome of the
function's own `ffmpeg.probe` call, `extractOk` whether the ffmpeg frame
extraction produced the output file, `thumbSize` its byte size.  Returns the
thumbnail path only when the file exists with non-zero size; every failure
is caught and becomes `None`. -/
def generateThumbnail (thumbName : String) (probeResult : Except PyErr ProbeData)
    (extractOk : Bool) (thumbSize : Nat) (videoPath : String)
    (durationMs : Option Int) (st : St) : Option String × St :=
  let thumbnailPath := thumbFile thumbName
  if videoPath ∈ st.fs then
    let st := emit (.ffprobe videoPath) st
    match probeResult with
    | .error _ => (none, st)
    | .ok probe =>
      match firstVideoStream probe.streams with
      | none => (none, st)
      | some vs =>
        let durationMs? : Option Int :=
          match durationMs with
          | some d => some d
          | none =>
            match vs.duration with
            | some d => some (d * 1000).floor
            | none =>
              match probe.formatDuration with
              | some d => some (d * 1000).floor
              | none => none
        match durationMs? with
        | none => (none, st)
        | some dms =>
          let middlePointSec : ℚ := (dms : ℚ) / 2000
          let st := emit (.ffmpegExtract videoPath thumbnailPath middlePointSec) st
          let st := if extractOk then touch thumbnailPath st else st
          if thumbnailPath ∈ st.fs then
            if thumbSize > 0 then (some thumbnailPath, st) else (none, st)
          else (none, st)
  else (none, st)

/-- `upload_to_s3(local_file_path, bucket_name, key)`: existence check, one
upload attempt, URL built from the bucket, region and key; an upload error
is caught and becomes `None`. -/
def uploadToS3 (region : String) (uploadOk : Bool)
    (localFilePath bucketName key : String) (st : St) : Option String × St :=
  if localFilePath ∈ st.fs then
    let st := emit (.s3Upload bucketName key) st
    if uploadOk then
      (some ("https://" ++ bucketName ++ ".s3." ++ region ++ ".amazonaws.com/" ++ key), st)
    else (none, st)
  else (none, st)

/-! ## Credential resolution -/

/-- The parsed secret blob (`json.loads(response['SecretString'])`), with
the five fields `get_authenticated_service` reads via `.get`. -/
structure SecretBlob where
  token : Option String
  refreshToken : Option String
  tokenUri : Option String
  clientId : Option String
  clientSecret : Option String
  deriving Repr, DecidableEq

/-- The `google.oauth2.credentials.Credentials` object as constructed by the
source: the five credential fields, the scope list, and the expiry — which
this constructor call never sets. -/
structure GoogleCredentials where
  token : String
  refreshToken : String
  tokenUri : String
  clientId : String
  clientSecret : String
  scopes : List String
  expiry : Option Nat
  deriving Repr, DecidableEq

/-- google-auth `Credentials.expired`: false when no expiry is recorded,
else a comparison of the expiry instant with the current time. -/
def credsExpired (c : GoogleCredentials) (now : Nat) : Bool :=
  match c.expiry with
  | none => false
  | some t => decide (t ≤ now)

/-- google-auth `Credentials.valid`: a token is present (guaranteed here by
the preceding `all(...)` check) and not expired. -/
def credsValid (c : GoogleCredentials) (now : Nat) : Bool :=
  !(credsExpired c now)

/-- The YouTube upload OAuth scope constant. -/
def YOUTUBE_UPLOAD_SCOPE : String := "https://www.googleapis.com/auth/youtube.upload"

/-- `get_authenticated_service()`.  Oracles: the configured secret id and
the outcome of the Secrets Manager fetch+parse.  `now` is the wall-clock
instant against which google-auth would judge expiry.  Mirrors the source:
fetch, field check, construct credentials (with no expiry), validity check —
no refresh call and no write-back anywhere. -/
def getAuthenticatedService (now : Nat) (youtubeSecretId : Option String)
    (secretFetch : Except PyErr SecretBlob) (st : St) :
    Except PyErr GoogleCredentials × St :=
  match youtubeSecretId with
  | none => (.error (.generic ("YOUTUBE_API_SECRET_ID environment variable not set")), st)
  | some sid =>
    let st := emit (.secretsGet sid) st
    match secretFetch with
    | .error e => (.error e, st)
    | .ok blob =>
      if truthy blob.token && truthy blob.refreshToken && truthy blob.tokenUri
          && truthy blob.clientId && truthy blob.clientSecret then
        let creds : GoogleCredentials :=
          { token := blob.token.getD (""), refreshToken := blob.refreshToken.getD (""),
            tokenUri := blob.tokenUri.getD (""), clientId := blob.clientId.getD (""),
            clientSecret := blob.clientSecret.getD (""),
            scopes := [YOUTUBE_UPLOAD_SCOPE], expiry := none }
        if credsValid creds now then (.ok creds, st)
        else (.error (.generic ("Invalid credentials")), st)
      else (.error (.generic ("Missing credential fields in secret")), st)

/-! ## Resumable upload -/

/-- The retriable status code constant of the source (declared there and
never consulted by the upload loop). -/
def RETRIABLE_STATUS_CODES : List Nat := [500, 502, 503, 504]

/-- How the chunk loop ends: a final response (carrying `response.get('id')`),
an `HttpError` with some status, or another exception. -/
inductive ChunkTerminal where
  | complete (videoId : Option String)
  | httpError (status : Nat)
  | raised
  deriving Repr, DecidableEq

/-- The value `upload_to_youtube` returns for a given loop ending: the id of
the final response (possibly `None`), and `None` for any caught error —
an `HttpError` is returned as failure immediately, whatever its status. -/
def chunkResult : ChunkTerminal → Option String
  | .complete id? => id?
  | .httpError _ => none
  | .raised => none

/-- The `while response is None` loop: `progressSteps` intermediate
`next_chunk` calls that report progress, then one final call that ends the
loop as `terminal`.  Each iteration is one `next_chunk` call. -/
def driveChunks : Nat → ChunkTerminal → St → Option String × St
  | 0, t, st => (chunkResult t, emit .nextChunk st)
  | n + 1, t, st => driveChunks n t (emit .nextChunk st)

/-- `upload_to_youtube(youtube, filepath, title, description, privacy_status)`:
builds the insert request (snippet with the fixed tag set and category,
status with the requested privacy) and drives the chunk loop. -/
def uploadToYoutube (progressSteps : Nat) (terminal : ChunkTerminal)
    (filepath title description privacyStatus : String) (st : St) :
    Option String × St :=
  let st := emit (.videosInsert filepath title description privacyStatus) st
  driveChunks progressSteps terminal st

/-! ## Webhook -/

/-- `get_webhook_secret()`: `None` when no secret id is configured; a fetch
failure is caught inside the function and also yields `None`. -/
def getWebhookSecret (webhookSecretId : Option String)
    (fetch : Except PyErr String) (st : St) : Option String × St :=
  match webhookSecretId with
  | none => (none, st)
  | some sid =>
    let st := emit (.secretsGet sid) st
    match fetch with
    | .ok s => (some s, st)
    | .error _ => (none, st)

/-- The headers of the webhook POST: content type always; the hex
HMAC-SHA256 of the exact serialized body under the key, only when a signing
key was obtained. -/
def webhookHeaders (secret? : Option String) (payloadJson : String) :
    List (String × String) :=
  match secret? with
  | some secret =>
    [("Content-Type", "application/json"),
     ("x-webhook-signature", hmacSha256Hex secret payloadJson)]
  | none => [("Content-Type", "application/json")]

/-- The webhook block of the handler (inside its own try/except): fetch the
signing key, serialize the payload, sign if a key was obtained, POST; a
`requests.post` failure leaves the delivery status `None`. -/
def webhookStep (webhookSecretId : Option String) (secretFetch : Except PyErr String)
    (postResult : Except PyErr Nat) (url videoId : String)
    (thumbnailUrl : Option String) (duration : Option Int) (st : St) :
    Option Nat × St :=
  let p := getWebhookSecret webhookSecretId secretFetch st
  let payloadJson := webhookPayloadJson videoId thumbnailUrl duration
  let headers := webhookHeaders p.1 payloadJson
  let st := emit (.webhookPost url headers payloadJson) p.2
  match postResult with
  | .ok status => (some status, st)
  | .error _ => (none, st)

/-! ## The handler -/

/-- The environment variables the handler reads (with the region default
already applied, as `os.environ.get('AWS_SECRETS_MANAGER_REGION',
'us-west-1')` does). -/
structure Env where
  region : String
  s3Bucket : String
  thumbnailBucket : String
  youtubeSecretId : Option String
  webhookSecretId : Option String
  deriving Repr, DecidableEq

/-- The invocation event, with the keys the handler reads via `.get`. -/
structure Event where
  s3Key : Option String
  title : Option String
  description : Option String
  privacyStatus : Option String
  webhookUrl : Option String
  deriving Repr, DecidableEq

/-- Outcomes of every external call one invocation can make, fixed up
front: this is the oracle for S3, ffmpeg, Secrets Manager, the YouTube
endpoint, the webhook endpoint and `os.remove`. -/
structure World where
  now : Nat
  headObject : Except PyErr Nat
  downloadOk : Bool
  mainProbe : Except PyErr ProbeData
  thumbProbe : Except PyErr ProbeData
  thumbName : String
  extractOk : Bool
  thumbSize : Nat
  s3UploadOk : Bool
  authSecret : Except PyErr SecretBlob
  progressSteps : Nat
  terminal : ChunkTerminal
  webhookSecretFetch : Except PyErr String
  postResult : Except PyErr Nat
  removeLocalOk : Bool
  removeThumbOk : Bool

/-- The JSON body of the handler's structured response: either the single
`error` string or the seven success fields. -/
inductive Body where
  | error (message : String)
  | success (s3Key : String) (fileSize : Nat) (youtubeVideoId : String)
      (youtubeUrl : String) (thumbnailUrl : Option String)
      (duration : Option Int) (webhookResponse : Option Nat)
  deriving Repr, DecidableEq

/-- A structured handler response. -/
structure Response where
  statusCode : Nat
  body : Body
  deriving Repr, DecidableEq

/-- The fixed video URL template the success body prepends to the id. -/
def youtubeUrlTemplate : String := "https://www.youtube.com/watch?v="

/-- The fixed suffix appended to the basename of the source key to obtain
the thumbnail's remote key. -/
def thumbnailSuffix : String := "-thumbnail.jpg"

/-- `thumbnail_s3_key = f"{os.path.basename(s3_key)}-thumbnail.jpg"`. -/
def thumbnailS3KeyOf (s3Key : String) : String :=
  basenameStr s3Key ++ thumbnailSuffix

/-- `webhook_response.status_code if webhook_response else None`: a
`requests.Response` is truthy exactly when `ok`, i.e. when its status code
is below 400, so a delivered-but-non-ok response is reported as `None`. -/
def reportedStatus : Option Nat → Option Nat
  | none => none
  | some s => if s < 400 then some s else none

/-- The body of the handler's `try:` block, given the values computed before
it.  An `.error` result is an exception reaching the handler's `except`
clause (which turns it into a 500 response). -/
def tryPipeline (env : Env) (w : World) (s3Key base videoTitle videoDescription
    privacyStatus : String) (webhookUrl : Option String) (st : St) :
    Except PyErr Response × St :=
  let st := emit (.headObject env.s3Bucket s3Key) st
  match w.headObject with
  | .error e => (.error e, st)
  | .ok fileSize =>
    let localFilePath := "/tmp/downloads/" ++ base
    let st := emit (.downloadFile env.s3Bucket s3Key) st
    if w.downloadOk then
      let st := touch localFilePath st
      let pd := getVideoDuration w.mainProbe localFilePath st
      let durationMs := pd.1
      let pt := generateThumbnail w.thumbName w.thumbProbe w.extractOk w.thumbSize
        localFilePath durationMs pd.2
      let thumbnailS3Key := thumbnailS3KeyOf s3Key
      let tr :=
        match pt.1 with
        | some tp =>
          if tp ∈ pt.2.fs then
            let pu := uploadToS3 env.region w.s3UploadOk tp env.thumbnailBucket
              thumbnailS3Key pt.2
            (pu.1, some tp, pu.2)
          else ((none : Option String), (none : Option String), pt.2)
        | none => ((none : Option String), (none : Option String), pt.2)
      let thumbnailUrl := tr.1
      let thumbnailPath? := tr.2.1
      match getAuthenticatedService w.now env.youtubeSecretId w.authSecret tr.2.2 with
      | (.error e, st) => (.error e, st)
      | (.ok _youtube, st) =>
        let pv := uploadToYoutube w.progressSteps w.terminal localFilePath
          videoTitle videoDescription privacyStatus st
        let st := pv.2
        if truthy pv.1 then
          let videoId := pv.1.getD ("")
          let pw :=
            if truthy webhookUrl then
              webhookStep env.webhookSecretId w.webhookSecretFetch w.postResult
                (webhookUrl.getD ("")) videoId thumbnailUrl durationMs st
            else ((none : Option Nat), st)
          let webhookResponse := pw.1
          let st := emit (.removeFile localFilePath) pw.2
          let st := if w.removeLocalOk then rm localFilePath st else st
          let st :=
            match thumbnailPath? with
            | some tp =>
              if tp ∈ st.fs then
                let st := emit (.removeFile tp) st
                if w.removeThumbOk then rm tp st else st
              else st
            | none => st
          (.ok ⟨200, .success s3Key fileSize videoId (youtubeUrlTemplate ++ videoId)
            thumbnailUrl durationMs (reportedStatus webhookResponse)⟩, st)
        else
          (.ok ⟨500, .error ("Failed to upload video to YouTube")⟩, st)
    else (.error (.clientError ("download failed")), st)

/-- `lambda_handler(event, context)`.  The title default is computed with
`os.path.basename(s3_key)` before anything else (CPython evaluates the
default argument of `.get` eagerly), so a missing `s3_key` raises
`TypeError` before the validation check; the `except` clause around the
pipeline turns any exception raised inside it into a 500 response. -/
def lambdaHandler (env : Env) (w : World) (ev : Event) : Except PyErr Response × St :=
  match pyBasename ev.s3Key with
  | .error e => (.error e, St.init)
  | .ok base =>
    let videoTitle := ev.title.getD ("TennisBuddies - " ++ base)
    let videoDescription := ev.description.getD ("Video uploaded by TennisBuddies")
    let privacyStatus := ev.privacyStatus.getD ("unlisted")
    if truthy ev.s3Key then
      match tryPipeline env w (ev.s3Key.getD ("")) base videoTitle videoDescription
          privacyStatus ev.webhookUrl St.init with
      | (.ok resp, st) => (.ok resp, st)
      | (.error e, st) => (.ok ⟨500, .error (errMsg e)⟩, st)
    else
      (.ok ⟨400, .error ("Missing required parameter: s3_key")⟩, St.init)

/-! ## Concrete fixtures used by witnesses and counterexamples -/

/-- A fully configured environment. -/
def envA : Env :=
  ⟨"us-west-1", "vid-bucket", "thumb-bucket", some ("yt-secret"), some ("wh-secret")⟩

/-- A secret blob with all five credential fields present. -/
def blobA : SecretBlob :=
  ⟨some ("tok"), some ("rtok"), some ("uri"), some ("cid"), some ("csec")⟩

/-- The credentials object the source constructs from `blobA`: no expiry. -/
def credsA : GoogleCredentials :=
  ⟨"tok", "rtok", "uri", "cid", "csec", [YOUTUBE_UPLOAD_SCOPE], none⟩

/-- A probe result with one 120-second video stream. -/
def probeA : ProbeData := ⟨[⟨"video", some (120 : ℚ)⟩], some (120 : ℚ)⟩

/-- A world in which every external call succeeds. -/
def worldA : World :=
  { now := 0, headObject := .ok 1234, downloadOk := true,
    mainProbe := .ok probeA, thumbProbe := .ok probeA,
    thumbName := "uuid-1", extractOk := true, thumbSize := 10,
    s3UploadOk := true, authSecret := .ok blobA,
    progressSteps := 2, terminal := .complete (some ("abc123")),
    webhookSecretFetch := .ok ("whkey"), postResult := .ok 200,
    removeLocalOk := true, removeThumbOk := true }

/-- An event with only the source key (no webhook). -/
def eventA : Event := ⟨some ("videos/a.mp4"), none, none, none, none⟩

/-- An event requesting a webhook. -/
def eventW : Event :=
  ⟨some ("videos/a.mp4"), none, none, none, some ("https://hook.example/x")⟩

/-- A world whose upload fails with a retriable 503 on the first chunk. -/
def worldC1 : World := { worldA with terminal := .httpError 503 }

/-- A world where the signing-key fetch fails but delivery succeeds; probes
fail so no thumbnail or duration is produced. -/
def worldC9 : World :=
  { worldA with
    mainProbe := .error (.generic ("probe failed")),
    thumbProbe := .error (.generic ("probe failed")),
    webhookSecretFetch := .error (.clientError ("AccessDenied")),
    postResult := .ok 200 }

/-- A world whose probes fail entirely (no duration, no thumbnail). -/
def worldC6 : World :=
  { worldA with
    mainProbe := .error (.generic ("probe failed")),
    thumbProbe := .error (.generic ("probe failed")) }

/-- A world where the thumbnail S3 upload fails but everything else
succeeds. -/
def worldC10 : World := { worldA with s3UploadOk := false }

/-- A world where the webhook POST raises. -/
def worldC9w : World := { worldA with postResult := .error (.clientError ("timeout")) }

/-! ## Helper lemmas about the stage functions -/

/-- FIPS 180-4 test vector: SHA-256 of `"abc"`. -/
theorem sha256_abc_vector :
    hexOfBytes (sha256 (utf8 ("abc")))
      = "ba7816bf8f01cfea414140de5dae2223b00361a396177a9cb410ff61f20015ad" := by
  decide

/-- RFC 2202-style test vector for HMAC-SHA256. -/
theorem hmac_sha256_vector :
    hmacSha256Hex ("key") ("The quick brown fox jumps over the lazy dog")
      = "f7bc83f430538424b13298e6aa6fb143ef4d59a14946175997479dbc2d1a3cd8" := by
  decide

theorem effects_ite (c : Prop) [Decidable c] (a b : St) :
    (if c then a else b).effects = if c then a.effects else b.effects := by
  split <;> rfl

theorem rm_effects (p : String) (st : St) : (rm p st).effects = st.effects := rfl

theorem emit_effects (e : Effect) (st : St) :
    (emit e st).effects = st.effects ++ [e] := rfl


theorem driveChunks_eq (n : Nat) (t : ChunkTerminal) (st : St) :
    driveChunks n t st
      = (chunkResult t,
         { st with effects := st.effects ++ List.replicate (n + 1) Effect.nextChunk }) := by
  induction n generalizing st with
  | zero => simp [driveChunks, emit]
  | succ n ih =>
    simp only [driveChunks, ih, emit]
    simp [List.replicate_succ, List.append_assoc]

theorem uploadToYoutube_eq (n : Nat) (t : ChunkTerminal) (fp a b c : String) (st : St) :
    uploadToYoutube n t fp a b c st
      = (chunkResult t,
         { st with effects := st.effects ++ [Effect.videosInsert fp a b c]
            ++ List.replicate (n + 1) Effect.nextChunk }) := by
  simp [uploadToYoutube, driveChunks_eq, emit, List.append_assoc]

theorem generateThumbnail_fs (nm : String) (pr : Except PyErr ProbeData)
    (eo : Bool) (ts : Nat) (vp : String) (dm : Option Int) (st : St) :
    (generateThumbnail nm pr eo ts vp dm st).2.fs = st.fs
      ∨ (generateThumbnail nm pr eo ts vp dm st).2.fs = st.fs ++ [thumbFile nm] := by
  unfold generateThumbnail
  split
  · cases pr with
    | error e => simp [emit]
    | ok probe =>
      simp only
      split
      · simp [emit]
      · split
        · simp [emit]
        · split <;> split <;> (try split) <;> simp [emit, touch]
  · simp

theorem generateThumbnail_some (nm : String) (pr : Except PyErr ProbeData)
    (eo : Bool) (ts : Nat) (vp : String) (dm : Option Int) (st : St) (tp : String)
    (h : (generateThumbnail nm pr eo ts vp dm st).1 = some tp) :
    tp = thumbFile nm
      ∧ tp ∈ (generateThumbnail nm pr eo ts vp dm st).2.fs
      ∧ ((generateThumbnail nm pr eo ts vp dm st).2.fs = st.fs
          ∨ (generateThumbnail nm pr eo ts vp dm st).2.fs = st.fs ++ [thumbFile nm]) := by
  unfold generateThumbnail at h ⊢
  split at h
  · cases pr with
    | error e => simp at h
    | ok probe =>
      simp only at h ⊢
      split at h
      · simp at h
      · split at h
        · simp at h
        · split at h <;> split at h <;> (try split at h) <;> simp_all [emit, touch]
  · simp at h

theorem generateThumbnail_no_remove (nm : String) (pr : Except PyErr ProbeData)
    (eo : Bool) (ts : Nat) (vp p : String) (dm : Option Int) (st : St)
    (h : Effect.removeFile p ∈ (generateThumbnail nm pr eo ts vp dm st).2.effects) :
    Effect.removeFile p ∈ st.effects := by
  unfold generateThumbnail at h
  split at h
  · cases pr with
    | error e => simp_all [emit]
    | ok probe =>
      simp only at h
      split at h
      · simp_all [emit]
      · split at h
        · simp_all [emit]
        · split at h <;> split at h <;> (try split at h) <;> simp_all [emit, touch]
  · exact h

theorem generateThumbnail_reprobe_none (nm : String) (pr : Except PyErr ProbeData)
    (eo : Bool) (ts : Nat) (vp : String) (st : St)
    (hnd : probedDurationMs pr = none) (hvp : vp ∈ st.fs) :
    generateThumbnail nm pr eo ts vp none st = (none, emit (.ffprobe vp) st) := by
  unfold generateThumbnail
  rw [if_pos hvp]
  cases pr with
  | error e => simp
  | ok probe =>
    simp only
    cases hfv : firstVideoStream probe.streams with
    | none => simp
    | some vs =>
      cases hd : vs.duration with
      | some d => simp [probedDurationMs, hfv, hd] at hnd
      | none =>
        cases hf : probe.formatDuration with
        | some d => simp [probedDurationMs, hfv, hd, hf] at hnd
        | none => simp [hfv, hd, hf]

theorem generateThumbnail_success (nm : String) (pd : ProbeData) (vs : ProbeStream)
    (ts : Nat) (vp : String) (dms : Int) (st : St)
    (hfv : firstVideoStream pd.streams = some vs) (hts : 0 < ts) (hvp : vp ∈ st.fs) :
    generateThumbnail nm (.ok pd) true ts vp (some dms) st
      = (some (thumbFile nm),
         touch (thumbFile nm)
           (emit (.ffmpegExtract vp (thumbFile nm) ((dms : ℚ) / 2000))
             (emit (.ffprobe vp) st))) := by
  unfold generateThumbnail
  rw [if_pos hvp]
  simp only [hfv, emit, touch]
  have hmem : thumbFile nm ∈ (st.fs ++ [thumbFile nm]) := by simp
  simp [hts, emit, touch]

theorem uploadToS3_fs (r : String) (ok : Bool) (p b k : String) (st : St) :
    (uploadToS3 r ok p b k st).2.fs = st.fs := by
  unfold uploadToS3
  split
  · split <;> simp [emit]
  · rfl

theorem uploadToS3_no_remove (r : String) (ok : Bool) (p b k q : String) (st : St)
    (h : Effect.removeFile q ∈ (uploadToS3 r ok p b k st).2.effects) :
    Effect.removeFile q ∈ st.effects := by
  unfold uploadToS3 at h
  split at h
  · split at h <;> simp_all [emit]
  · exact h

theorem uploadToS3_st (r : String) (ok : Bool) (p b k : String) (st : St)
    (hp : p ∈ st.fs) :
    (uploadToS3 r ok p b k st).2 = emit (.s3Upload b k) st := by
  unfold uploadToS3
  rw [if_pos hp]
  split <;> rfl

theorem uploadToS3_fail (r : String) (p b k : String) (st : St) :
    (uploadToS3 r false p b k st).1 = none := by
  unfold uploadToS3
  split <;> rfl

theorem webhookStep_fs (wsid : Option String) (f : Except PyErr String)
    (post : Except PyErr Nat) (u v : String) (tu : Option String) (d : Option Int)
    (st : St) : (webhookStep wsid f post u v tu d st).2.fs = st.fs := by
  unfold webhookStep getWebhookSecret
  cases wsid <;> cases f <;> cases post <;> simp [emit]

theorem webhookStep_post_error (wsid : Option String) (f : Except PyErr String)
    (e : PyErr) (u v : String) (tu : Option String) (d : Option Int) (st : St) :
    (webhookStep wsid f (.error e) u v tu d st).1 = none := by
  unfold webhookStep
  rfl

theorem webhookStep_fetch_error (wsid : Option String) (e : PyErr) (s : Nat)
    (u v : String) (tu : Option String) (d : Option Int) (st : St) :
    (webhookStep wsid (.error e) (.ok s) u v tu d st).1 = some s
      ∧ Effect.webhookPost u [("Content-Type", "application/json")]
          (webhookPayloadJson v tu d)
        ∈ (webhookStep wsid (.error e) (.ok s) u v tu d st).2.effects := by
  unfold webhookStep getWebhookSecret
  cases wsid <;> simp [emit, webhookHeaders]

theorem webhookStep_val (wsid : Option String) (f : Except PyErr String)
    (post : Except PyErr Nat) (u v : String) (tu : Option String) (d : Option Int)
    (st : St) : (webhookStep wsid f post u v tu d st).1 = post.toOption := by
  unfold webhookStep
  cases post <;> rfl

theorem webhookStep_unsigned (wsid : Option String) (e : PyErr)
    (post : Except PyErr Nat) (u v : String) (tu : Option String) (d : Option Int)
    (st : St) :
    Effect.webhookPost u [("Content-Type", "application/json")]
        (webhookPayloadJson v tu d)
      ∈ (webhookStep wsid (.error e) post u v tu d st).2.effects := by
  unfold webhookStep getWebhookSecret
  cases wsid <;> cases post <;> simp [emit, webhookHeaders]

/-! ## Claim theorems -/

/-- C2: the spec's intended contract (an HTTP status in
`RETRIABLE_STATUS_CODES` triggers at least one retry before the upload
fails) is not what the code does: on a 503 from the first chunk call the
engine fails immediately after exactly one `next_chunk` attempt, exactly
as it does on a non-retriable 400 — `RETRIABLE_STATUS_CODES` is declared
but never consulted. -/
theorem C2_no_retry_on_retriable_status :
    (503 ∈ RETRIABLE_STATUS_CODES)
    ∧ (uploadToYoutube 0 (.httpError 503) ("/tmp/downloads/a.mp4") ("t") ("d")
        ("unlisted") St.init).1 = none
    ∧ (uploadToYoutube 0 (.httpError 503) ("/tmp/downloads/a.mp4") ("t") ("d")
        ("unlisted") St.init).2.effects.count Effect.nextChunk = 1
    ∧ (uploadToYoutube 0 (.httpError 503) ("/tmp/downloads/a.mp4") ("t") ("d")
        ("unlisted") St.init).1
      = (uploadToYoutube 0 (.httpError 400) ("/tmp/downloads/a.mp4") ("t") ("d")
        ("unlisted") St.init).1 := by
  decide

/-- C3: the claimed refresh-and-persist never happens in this code:
credential resolution on a blob with all five fields does one secret read,
performs no token refresh and no secret write-back, and returns a
credential constructed with no expiry — which google-auth reports as valid
at any `now` (here an arbitrary late instant), so an actually-expired
stored token is neither refreshed nor persisted nor rejected. -/
theorem C3_no_refresh_no_writeback :
    (getAuthenticatedService 999999999 (some ("yt-secret")) (.ok blobA) St.init).1
        = .ok credsA
    ∧ (getAuthenticatedService 999999999 (some ("yt-secret")) (.ok blobA)
        St.init).2.effects = [.secretsGet ("yt-secret")]
    ∧ Effect.tokenRefresh
        ∉ (getAuthenticatedService 999999999 (some ("yt-secret")) (.ok blobA)
            St.init).2.effects
    ∧ Effect.secretsPut ("yt-secret")
        ∉ (getAuthenticatedService 999999999 (some ("yt-secret")) (.ok blobA)
            St.init).2.effects
    ∧ credsA.expiry = none
    ∧ credsValid credsA 999999999 = true := by
  decide

/-- C4: an event with no `s3_key` does not produce the claimed 400
response: the eagerly evaluated `os.path.basename(s3_key)` in the title
default raises `TypeError` before the validation check, for every
environment, world and combination of the other event fields; the handler
propagates the exception (no effects, no scratch files). -/
theorem C4_missing_source_key_raises (env : Env) (w : World)
    (t d p u : Option String) :
    lambdaHandler env w ⟨none, t, d, p, u⟩ = (.error .typeError, St.init)
      ∧ St.init.effects = [] ∧ St.init.fs = [] := by
  exact ⟨rfl, rfl, rfl⟩

/-- C7: webhook signing is a pure function of the signing key and the
exact serialized payload: with a key, the headers are the content type
plus the hex HMAC-SHA256 of the payload bytes under the key bytes (so two
computations on the same inputs agree definitionally); with no key the
posted request carries no signature header; and the signed POST's body is
the very string the signature was computed over. -/
theorem C7_webhook_signing (secret payload vid u wsid skey : String)
    (tu : Option String) (d : Option Int) (fetch : Except PyErr String)
    (post : Except PyErr Nat) (st : St) :
    webhookHeaders (some secret) payload
        = [("Content-Type", "application/json"),
           ("x-webhook-signature", hexOfBytes (hmacSha256 (utf8 secret) (utf8 payload)))]
    ∧ hmacSha256Hex secret payload = hexOfBytes (hmacSha256 (utf8 secret) (utf8 payload))
    ∧ (webhookHeaders none payload).lookup ("x-webhook-signature") = none
    ∧ (webhookStep none fetch post u vid tu d st).2.effects
        = st.effects ++ [.webhookPost u [("Content-Type", "application/json")]
            (webhookPayloadJson vid tu d)]
    ∧ (webhookStep (some wsid) (.ok skey) post u vid tu d st).2.effects
        = st.effects ++ [.secretsGet wsid,
            .webhookPost u
              [("Content-Type", "application/json"),
               ("x-webhook-signature", hmacSha256Hex skey (webhookPayloadJson vid tu d))]
              (webhookPayloadJson vid tu d)] := by
  refine ⟨rfl, rfl, rfl, ?_, ?_⟩
  · unfold webhookStep getWebhookSecret
    cases post <;> simp [emit, webhookHeaders]
  · unfold webhookStep getWebhookSecret
    cases post <;> simp [emit, webhookHeaders, List.append_assoc]

/-- C8 counterexample: the thumbnail remote key is not the source key with
the suffix appended — for the key `videos/a.mp4` the code produces
`a.mp4-thumbnail.jpg` (basename plus suffix), not
`videos/a.mp4-thumbnail.jpg`. -/
theorem C8_counterexample :
    thumbnailS3KeyOf ("videos/a.mp4") = "a.mp4-thumbnail.jpg"
    ∧ thumbnailS3KeyOf ("videos/a.mp4") ≠ "videos/a.mp4" ++ thumbnailSuffix := by
  decide

/-- C1 counterexample: on a run whose upload fails (503 on the first
chunk), the handler returns the 500 failure with the downloaded source
file and the generated thumbnail both still present in scratch storage and
no removal attempted — cleanup is not unconditional. -/
theorem C1_counterexample :
    (lambdaHandler envA worldC1 eventA).1
        = .ok ⟨500, .error ("Failed to upload video to YouTube")⟩
    ∧ ("/tmp/downloads/a.mp4") ∈ (lambdaHandler envA worldC1 eventA).2.fs
    ∧ ("/tmp/uuid-1.jpg") ∈ (lambdaHandler envA worldC1 eventA).2.fs
    ∧ Effect.removeFile ("/tmp/downloads/a.mp4")
        ∉ (lambdaHandler envA worldC1 eventA).2.effects := by
  decide

/-- C9 counterexample: with the signing-key retrieval failing and delivery
succeeding with 200, the handler still reports the delivery status
`some 200`, not the claimed null — a retrieval failure alone does not
nullify the reported status (the webhook is simply sent unsigned). -/
theorem C9_counterexample :
    worldC9.webhookSecretFetch = .error (.clientError ("AccessDenied"))
    ∧ (lambdaHandler envA worldC9 eventW).1
        = .ok ⟨200, .success ("videos/a.mp4") 1234 ("abc123")
            ("https://www.youtube.com/watch?v=abc123") none none (some 200)⟩
    ∧ (some 200 : Option Nat) ≠ none := by
  decide

/-- C5: every successful run (object reachable: head and download succeed;
credentials resolve; the chunk loop completes with a truthy id) returns
status 200 with a body carrying the source key, the file size, the
non-empty video id, the video URL equal to the fixed template with the id
appended (hence embedding it exactly once, as its suffix), and the
nullable thumbnail URL, duration and webhook delivery status. -/
theorem C5_success_response (env : Env) (w : World) (ev : Event)
    (k sid : String) (n : Nat) (blob : SecretBlob) (vid : String)
    (hk : ev.s3Key = some k) (hk' : k ≠ "")
    (hh : w.headObject = .ok n) (hd : w.downloadOk = true)
    (hsid : env.youtubeSecretId = some sid) (hsec : w.authSecret = .ok blob)
    (hblob : (truthy blob.token && truthy blob.refreshToken && truthy blob.tokenUri
        && truthy blob.clientId && truthy blob.clientSecret) = true)
    (hterm : w.terminal = .complete (some vid)) (hvid : vid ≠ "") :
    ∃ tu du wr stf,
      lambdaHandler env w ev
        = (.ok ⟨200, .success k n vid (youtubeUrlTemplate ++ vid) tu du wr⟩, stf)
      ∧ vid ≠ "" := by
  have htk : truthy (some k) = true := by simp [truthy, hk']
  have htv : truthy (some vid) = true := by simp [truthy, hvid]
  simp only [lambdaHandler, hk, pyBasename, Option.getD_some, htk, if_true]
  simp only [tryPipeline, hh, hd, if_true, getVideoDuration]
  generalize hG : generateThumbnail w.thumbName w.thumbProbe w.extractOk w.thumbSize
      ("/tmp/downloads/" ++ basenameStr k) (probedDurationMs w.mainProbe)
      (emit (Effect.ffprobe ("/tmp/downloads/" ++ basenameStr k))
        (touch ("/tmp/downloads/" ++ basenameStr k)
          (emit (Effect.downloadFile env.s3Bucket k)
            (emit (Effect.headObject env.s3Bucket k) St.init)))) = G
  obtain ⟨tp?, stG⟩ := G
  cases tp? with
  | some tp =>
    obtain ⟨htp, hmem, hfs⟩ := generateThumbnail_some _ _ _ _ _ _ _ tp (by rw [hG])
    rw [hG] at hmem hfs
    simp only at hmem hfs
    simp only
    rw [if_pos hmem]
    simp only [getAuthenticatedService, hsid, hsec, hblob, if_true, credsValid, credsExpired,
      Bool.not_false, uploadToYoutube_eq, hterm, chunkResult, htv, Option.getD_some]
    exact ⟨_, _, _, _, rfl, hvid⟩
  | none =>
    simp only
    simp only [getAuthenticatedService, hsid, hsec, hblob, if_true, credsValid, credsExpired,
      Bool.not_false, uploadToYoutube_eq, hterm, chunkResult, htv, Option.getD_some]
    exact ⟨_, _, _, _, rfl, hvid⟩

/-- C5 witness: the successful fixture run instantiates the theorem. -/
theorem C5_success_response_witness :
    ∃ tu du wr stf,
      lambdaHandler envA worldA eventA
        = (.ok ⟨200, .success ("videos/a.mp4") 1234 ("abc123")
            (youtubeUrlTemplate ++ "abc123") tu du wr⟩, stf)
      ∧ "abc123" ≠ "" :=
  C5_success_response envA worldA eventA ("videos/a.mp4") ("yt-secret") 1234 blobA
    ("abc123") rfl (by decide) rfl rfl rfl rfl (by decide) rfl (by decide)

/-- C1 amended: cleanup runs only after a successful upload.  On every run
that reaches the upload and succeeds, removal of the source scratch file
and, when a validated thumbnail path was retained, of the thumbnail
scratch file, is attempted before the 200 return; each file is absent
whenever its removal succeeds, and removal failures do not change the
returned response.  On a run whose upload fails, the handler returns the
500 failure having attempted no removal whatsoever, with the source
scratch file — and the retained thumbnail file — still present.  (The
`hne` hypothesis is the uuid-freshness of the thumbnail filename: it never
collides with the downloaded asset's path.) -/
theorem C1_cleanup_amended (env : Env) (w : World) (ev : Event)
    (k sid : String) (n : Nat) (blob : SecretBlob) (b1 b2 : Bool)
    (hk : ev.s3Key = some k) (hk' : k ≠ "")
    (hh : w.headObject = .ok n) (hd : w.downloadOk = true)
    (hsid : env.youtubeSecretId = some sid) (hsec : w.authSecret = .ok blob)
    (hblob : (truthy blob.token && truthy blob.refreshToken && truthy blob.tokenUri
        && truthy blob.clientId && truthy blob.clientSecret) = true)
    (hne : thumbFile w.thumbName ≠ "/tmp/downloads/" ++ basenameStr k) :
    (truthy (chunkResult w.terminal) = true →
        Effect.removeFile ("/tmp/downloads/" ++ basenameStr k)
          ∈ (lambdaHandler env w ev).2.effects
      ∧ (w.removeLocalOk = true →
          ("/tmp/downloads/" ++ basenameStr k) ∉ (lambdaHandler env w ev).2.fs)
      ∧ (∀ tp, (generateThumbnail w.thumbName w.thumbProbe w.extractOk w.thumbSize
            ("/tmp/downloads/" ++ basenameStr k) (probedDurationMs w.mainProbe)
            (emit (Effect.ffprobe ("/tmp/downloads/" ++ basenameStr k))
              (touch ("/tmp/downloads/" ++ basenameStr k)
                (emit (Effect.downloadFile env.s3Bucket k)
                  (emit (Effect.headObject env.s3Bucket k) St.init))))).1 = some tp →
          Effect.removeFile tp ∈ (lambdaHandler env w ev).2.effects
        ∧ (w.removeThumbOk = true → tp ∉ (lambdaHandler env w ev).2.fs))
      ∧ (lambdaHandler env { w with removeLocalOk := b1, removeThumbOk := b2 } ev).1
          = (lambdaHandler env w ev).1)
    ∧ (truthy (chunkResult w.terminal) = false →
        (lambdaHandler env w ev).1
          = .ok ⟨500, .error ("Failed to upload video to YouTube")⟩
      ∧ ("/tmp/downloads/" ++ basenameStr k) ∈ (lambdaHandler env w ev).2.fs
      ∧ (∀ tp, (generateThumbnail w.thumbName w.thumbProbe w.extractOk w.thumbSize
            ("/tmp/downloads/" ++ basenameStr k) (probedDurationMs w.mainProbe)
            (emit (Effect.ffprobe ("/tmp/downloads/" ++ basenameStr k))
              (touch ("/tmp/downloads/" ++ basenameStr k)
                (emit (Effect.downloadFile env.s3Bucket k)
                  (emit (Effect.headObject env.s3Bucket k) St.init))))).1 = some tp →
          tp ∈ (lambdaHandler env w ev).2.fs)
      ∧ (∀ p, Effect.removeFile p ∉ (lambdaHandler env w ev).2.effects)) := by
  have htk : truthy (some k) = true := by simp [truthy, hk']
  constructor
  · intro htr
    cases hcr : chunkResult w.terminal with
    | none => rw [hcr] at htr; simp [truthy] at htr
    | some vid =>
      rw [hcr] at htr
      have htv : truthy (some vid) = true := htr
      simp only [lambdaHandler, hk, pyBasename, Option.getD_some, htk, if_true]
      simp only [tryPipeline, hh, hd, if_true, getVideoDuration]
      generalize hG : generateThumbnail w.thumbName w.thumbProbe w.extractOk w.thumbSize
          ("/tmp/downloads/" ++ basenameStr k) (probedDurationMs w.mainProbe)
          (emit (Effect.ffprobe ("/tmp/downloads/" ++ basenameStr k))
            (touch ("/tmp/downloads/" ++ basenameStr k)
              (emit (Effect.downloadFile env.s3Bucket k)
                (emit (Effect.headObject env.s3Bucket k) St.init)))) = G
      obtain ⟨tp?, stG⟩ := G
      cases tp? with
      | some tp =>
        obtain ⟨htp, hmem, hfs⟩ := generateThumbnail_some _ _ _ _ _ _ _ tp (by rw [hG])
        rw [hG] at hmem hfs
        simp only at hmem hfs
        have hneq : tp ≠ "/tmp/downloads/" ++ basenameStr k := htp ▸ hne
        simp only
        rw [if_pos hmem]
        simp only [getAuthenticatedService, hsid, hsec, hblob, if_true, credsValid,
          credsExpired, Bool.not_false, uploadToYoutube_eq, hcr, htv,
          Option.getD_some]
        refine ⟨?_, ?_, ?_, ?_⟩
        · simp only [effects_ite, rm_effects, emit_effects]
          split <;> (try split) <;> (try split) <;> simp [List.mem_append]
        · intro hrl
          simp only [hrl, if_true]
          split <;> (try split) <;> (try split) <;>
            simp [rm, emit, List.mem_filter]
        · intro tp2 htp2
          have htp2' : tp2 = tp := (Option.some.inj htp2).symm
          subst htp2'
          constructor
          · simp only [effects_ite, rm_effects, emit_effects]
            split <;> (try split) <;> (try split) <;> (try split)
            all_goals try simp [List.mem_append]
            all_goals
              rename_i hneg
              exact absurd (by
                simp [rm, emit, webhookStep_fs, uploadToS3_fs, List.mem_filter,
                  bne_iff_ne, hneq, hmem]) hneg
          · intro hrt
            simp only [hrt, if_true]
            split <;> (try split) <;> (try split) <;> (try split)
            all_goals try (rename_i hneg; exact hneg)
            all_goals simp [rm, emit, List.mem_filter]
        · trivial
      | none =>
        simp only
        simp only [getAuthenticatedService, hsid, hsec, hblob, if_true, credsValid,
          credsExpired, Bool.not_false, uploadToYoutube_eq, hcr, htv,
          Option.getD_some]
        refine ⟨?_, ?_, ?_, ?_⟩
        · simp only [effects_ite, rm_effects, emit_effects]
          split <;> (try split) <;> (try split) <;> simp [List.mem_append]
        · intro hrl
          simp only [hrl, if_true]
          split <;> (try split) <;> (try split) <;>
            simp [rm, emit, List.mem_filter]
        · intro tp2 htp2
          simp at htp2
        · trivial
  · intro htr
    have hfalse : truthy (chunkResult w.terminal) = false := htr
    simp only [lambdaHandler, hk, pyBasename, Option.getD_some, htk, if_true]
    simp only [tryPipeline, hh, hd, if_true, getVideoDuration]
    generalize hG : generateThumbnail w.thumbName w.thumbProbe w.extractOk w.thumbSize
        ("/tmp/downloads/" ++ basenameStr k) (probedDurationMs w.mainProbe)
        (emit (Effect.ffprobe ("/tmp/downloads/" ++ basenameStr k))
          (touch ("/tmp/downloads/" ++ basenameStr k)
            (emit (Effect.downloadFile env.s3Bucket k)
              (emit (Effect.headObject env.s3Bucket k) St.init)))) = G
    obtain ⟨tp?, stG⟩ := G
    have hfsG : stG.fs = (emit (Effect.ffprobe ("/tmp/downloads/" ++ basenameStr k))
          (touch ("/tmp/downloads/" ++ basenameStr k)
            (emit (Effect.downloadFile env.s3Bucket k)
              (emit (Effect.headObject env.s3Bucket k) St.init)))).fs
        ∨ stG.fs = (emit (Effect.ffprobe ("/tmp/downloads/" ++ basenameStr k))
          (touch ("/tmp/downloads/" ++ basenameStr k)
            (emit (Effect.downloadFile env.s3Bucket k)
              (emit (Effect.headObject env.s3Bucket k) St.init)))).fs
            ++ [thumbFile w.thumbName] := by
      have h0 := generateThumbnail_fs w.thumbName w.thumbProbe w.extractOk w.thumbSize
        ("/tmp/downloads/" ++ basenameStr k) (probedDurationMs w.mainProbe)
        (emit (Effect.ffprobe ("/tmp/downloads/" ++ basenameStr k))
          (touch ("/tmp/downloads/" ++ basenameStr k)
            (emit (Effect.downloadFile env.s3Bucket k)
              (emit (Effect.headObject env.s3Bucket k) St.init))))
      rw [hG] at h0
      exact h0
    have hnoremG : ∀ q, Effect.removeFile q ∈ stG.effects → False := by
      intro q hq
      have h1 := generateThumbnail_no_remove w.thumbName w.thumbProbe w.extractOk
        w.thumbSize ("/tmp/downloads/" ++ basenameStr k) q (probedDurationMs w.mainProbe)
        (emit (Effect.ffprobe ("/tmp/downloads/" ++ basenameStr k))
          (touch ("/tmp/downloads/" ++ basenameStr k)
            (emit (Effect.downloadFile env.s3Bucket k)
              (emit (Effect.headObject env.s3Bucket k) St.init)))) (by rw [hG]; exact hq)
      simp [emit, touch, St.init] at h1
    cases tp? with
    | some tp =>
      obtain ⟨htp, hmem, hfs⟩ := generateThumbnail_some _ _ _ _ _ _ _ tp (by rw [hG])
      rw [hG] at hmem
      simp only at hmem
      simp only
      rw [if_pos hmem]
      simp only [getAuthenticatedService, hsid, hsec, hblob, if_true, credsValid,
        credsExpired, Bool.not_false, uploadToYoutube_eq, hfalse, Bool.false_eq_true,
        if_false]
      refine ⟨trivial, ?_, ?_, ?_⟩
      · simp only [uploadToS3_fs, emit, touch, St.init]
        rcases hfsG with h | h <;> simp [h, emit, touch, St.init]
      · intro tp2 htp2
        have htp2' : tp2 = tp := (Option.some.inj htp2).symm
        subst htp2'
        simp [emit, uploadToS3_fs, hmem]
      · intro p hmem2
        simp [emit_effects, List.mem_append, List.mem_replicate] at hmem2
        exact absurd (uploadToS3_no_remove _ _ _ _ _ _ _ hmem2) (fun hq => hnoremG _ hq)
    | none =>
      simp only
      simp only [getAuthenticatedService, hsid, hsec, hblob, if_true, credsValid,
        credsExpired, Bool.not_false, uploadToYoutube_eq, hfalse, Bool.false_eq_true,
        if_false]
      refine ⟨trivial, ?_, ?_, ?_⟩
      · simp only [emit, touch, St.init]
        rcases hfsG with h | h <;> simp [h, emit, touch, St.init]
      · intro tp2 htp2
        simp at htp2
      · intro p hmem2
        simp [emit_effects, List.mem_append, List.mem_replicate] at hmem2
        exact hnoremG _ hmem2

/-- C1 witness: the amended cleanup statement at the all-success fixture. -/
theorem C1_cleanup_amended_witness :
    (truthy (chunkResult worldA.terminal) = true →
        Effect.removeFile ("/tmp/downloads/" ++ basenameStr ("videos/a.mp4"))
          ∈ (lambdaHandler envA worldA eventA).2.effects
      ∧ (worldA.removeLocalOk = true →
          ("/tmp/downloads/" ++ basenameStr ("videos/a.mp4"))
            ∉ (lambdaHandler envA worldA eventA).2.fs)
      ∧ (∀ tp, (generateThumbnail worldA.thumbName worldA.thumbProbe worldA.extractOk
            worldA.thumbSize ("/tmp/downloads/" ++ basenameStr ("videos/a.mp4"))
            (probedDurationMs worldA.mainProbe)
            (emit (Effect.ffprobe ("/tmp/downloads/" ++ basenameStr ("videos/a.mp4")))
              (touch ("/tmp/downloads/" ++ basenameStr ("videos/a.mp4"))
                (emit (Effect.downloadFile envA.s3Bucket ("videos/a.mp4"))
                  (emit (Effect.headObject envA.s3Bucket ("videos/a.mp4"))
                    St.init))))).1 = some tp →
          Effect.removeFile tp ∈ (lambdaHandler envA worldA eventA).2.effects
        ∧ (worldA.removeThumbOk = true →
            tp ∉ (lambdaHandler envA worldA eventA).2.fs))
      ∧ (lambdaHandler envA
            { worldA with removeLocalOk := false, removeThumbOk := false } eventA).1
          = (lambdaHandler envA worldA eventA).1)
    ∧ (truthy (chunkResult worldA.terminal) = false →
        (lambdaHandler envA worldA eventA).1
          = .ok ⟨500, .error ("Failed to upload video to YouTube")⟩
      ∧ ("/tmp/downloads/" ++ basenameStr ("videos/a.mp4"))
          ∈ (lambdaHandler envA worldA eventA).2.fs
      ∧ (∀ tp, (generateThumbnail worldA.thumbName worldA.thumbProbe worldA.extractOk
            worldA.thumbSize ("/tmp/downloads/" ++ basenameStr ("videos/a.mp4"))
            (probedDurationMs worldA.mainProbe)
            (emit (Effect.ffprobe ("/tmp/downloads/" ++ basenameStr ("videos/a.mp4")))
              (touch ("/tmp/downloads/" ++ basenameStr ("videos/a.mp4"))
                (emit (Effect.downloadFile envA.s3Bucket ("videos/a.mp4"))
                  (emit (Effect.headObject envA.s3Bucket ("videos/a.mp4"))
                    St.init))))).1 = some tp →
          tp ∈ (lambdaHandler envA worldA eventA).2.fs)
      ∧ (∀ p, Effect.removeFile p ∉ (lambdaHandler envA worldA eventA).2.effects)) :=
  C1_cleanup_amended envA worldA eventA ("videos/a.mp4") ("yt-secret") 1234 blobA
    false false rfl (by decide) rfl rfl rfl rfl (by decide) (by decide)

/-- C6: when duration probing yields nothing (`probedDurationMs` is `None`
for the main probe — it returns rather than raising) and the thumbnail
stage's own re-probe also yields nothing, the run still reaches the upload
stage and, on upload success, returns 200 with null duration and null
thumbnail URL; the ffprobe call count of 2 witnesses that the thumbnail
stage re-probed after the failed duration probe. -/
theorem C6_duration_soft_failure (env : Env) (w : World) (ev : Event)
    (k sid : String) (n : Nat) (blob : SecretBlob) (vid : String)
    (hk : ev.s3Key = some k) (hk' : k ≠ "")
    (hh : w.headObject = .ok n) (hd : w.downloadOk = true)
    (hnd : probedDurationMs w.mainProbe = none)
    (hnd2 : probedDurationMs w.thumbProbe = none)
    (hsid : env.youtubeSecretId = some sid) (hsec : w.authSecret = .ok blob)
    (hblob : (truthy blob.token && truthy blob.refreshToken && truthy blob.tokenUri
        && truthy blob.clientId && truthy blob.clientSecret) = true)
    (hterm : w.terminal = .complete (some vid)) (hvid : vid ≠ "")
    (hwu : ev.webhookUrl = none) :
    ∃ wr stf,
      lambdaHandler env w ev
        = (.ok ⟨200, .success k n vid (youtubeUrlTemplate ++ vid) none none wr⟩, stf)
      ∧ stf.effects.count (Effect.ffprobe ("/tmp/downloads/" ++ basenameStr k)) = 2
      ∧ Effect.nextChunk ∈ stf.effects := by
  have htk : truthy (some k) = true := by simp [truthy, hk']
  have htv : truthy (some vid) = true := by simp [truthy, hvid]
  simp only [lambdaHandler, hk, pyBasename, Option.getD_some, htk, if_true]
  simp only [tryPipeline, hh, hd, if_true, getVideoDuration, hnd]
  rw [generateThumbnail_reprobe_none _ _ _ _ _ _ hnd2 (by simp [emit, touch, St.init])]
  have hwf : truthy ev.webhookUrl = false := by rw [hwu]; rfl
  simp only [getAuthenticatedService, hsid, hsec, hblob, if_true, credsValid, credsExpired,
    Bool.not_false, uploadToYoutube_eq, hterm, chunkResult, htv, Option.getD_some,
    hwf, Bool.false_eq_true, if_false]
  refine ⟨_, _, rfl, ?_, ?_⟩
  · simp [effects_ite, rm_effects, emit_effects, touch, St.init, List.count_append,
      List.count_replicate, List.count_singleton, List.count_cons, List.count_nil,
      beq_iff_eq]
  · simp [effects_ite, rm_effects, emit_effects, List.mem_append, List.mem_replicate]

/-- C6 witness: the fixture run with both probes failing. -/
theorem C6_duration_soft_failure_witness :
    ∃ wr stf,
      lambdaHandler envA worldC6 eventA
        = (.ok ⟨200, .success ("videos/a.mp4") 1234 ("abc123")
            (youtubeUrlTemplate ++ "abc123") none none wr⟩, stf)
      ∧ stf.effects.count
          (Effect.ffprobe ("/tmp/downloads/" ++ basenameStr ("videos/a.mp4"))) = 2
      ∧ Effect.nextChunk ∈ stf.effects :=
  C6_duration_soft_failure envA worldC6 eventA ("videos/a.mp4") ("yt-secret") 1234
    blobA ("abc123") rfl (by decide) rfl rfl rfl rfl rfl rfl (by decide) rfl
    (by decide) rfl

/-- C10: when a thumbnail is successfully extracted (probe finds a video
stream, extraction writes a non-empty file) but its S3 upload fails, the
failure is soft: `upload_to_s3` returns `None` for every failing world, the
200 response carries a null thumbnail URL, and the run still authenticated
(secret read) and uploaded the video (chunk calls made). -/
theorem C10_thumbnail_upload_soft (env : Env) (w : World) (ev : Event)
    (k sid : String) (n : Nat) (blob : SecretBlob) (vid : String)
    (pd : ProbeData) (vs : ProbeStream) (dms : Int)
    (hk : ev.s3Key = some k) (hk' : k ≠ "")
    (hh : w.headObject = .ok n) (hd : w.downloadOk = true)
    (hmain : probedDurationMs w.mainProbe = some dms)
    (htpr : w.thumbProbe = .ok pd) (hfv : firstVideoStream pd.streams = some vs)
    (heo : w.extractOk = true) (hts : 0 < w.thumbSize)
    (hs3 : w.s3UploadOk = false)
    (hsid : env.youtubeSecretId = some sid) (hsec : w.authSecret = .ok blob)
    (hblob : (truthy blob.token && truthy blob.refreshToken && truthy blob.tokenUri
        && truthy blob.clientId && truthy blob.clientSecret) = true)
    (hterm : w.terminal = .complete (some vid)) (hvid : vid ≠ "")
    (hwu : ev.webhookUrl = none) :
    ∃ stf,
      lambdaHandler env w ev
        = (.ok ⟨200, .success k n vid (youtubeUrlTemplate ++ vid) none (some dms) none⟩,
           stf)
      ∧ Effect.s3Upload env.thumbnailBucket (thumbnailS3KeyOf k) ∈ stf.effects
      ∧ Effect.secretsGet sid ∈ stf.effects
      ∧ Effect.nextChunk ∈ stf.effects
      ∧ (∀ r p b kk st2, (uploadToS3 r false p b kk st2).1 = none) := by
  have htk : truthy (some k) = true := by simp [truthy, hk']
  have htv : truthy (some vid) = true := by simp [truthy, hvid]
  have hwf : truthy ev.webhookUrl = false := by rw [hwu]; rfl
  simp only [lambdaHandler, hk, pyBasename, Option.getD_some, htk, if_true]
  simp only [tryPipeline, hh, hd, if_true, getVideoDuration, hmain, htpr, heo]
  rw [generateThumbnail_success _ pd vs _ _ _ _ hfv hts (by simp [emit, touch, St.init])]
  simp only
  have hmem3 : thumbFile w.thumbName ∈ (touch (thumbFile w.thumbName)
      (emit (Effect.ffmpegExtract ("/tmp/downloads/" ++ basenameStr k)
          (thumbFile w.thumbName) ((dms : ℚ) / 2000))
        (emit (Effect.ffprobe ("/tmp/downloads/" ++ basenameStr k))
          (emit (Effect.ffprobe ("/tmp/downloads/" ++ basenameStr k))
            (touch ("/tmp/downloads/" ++ basenameStr k)
              (emit (Effect.downloadFile env.s3Bucket k)
                (emit (Effect.headObject env.s3Bucket k) St.init))))))).fs := by
    simp [emit, touch, St.init]
  rw [if_pos hmem3]
  have heqU : uploadToS3 env.region w.s3UploadOk (thumbFile w.thumbName)
      env.thumbnailBucket (thumbnailS3KeyOf k) (touch (thumbFile w.thumbName)
        (emit (Effect.ffmpegExtract ("/tmp/downloads/" ++ basenameStr k)
            (thumbFile w.thumbName) ((dms : ℚ) / 2000))
          (emit (Effect.ffprobe ("/tmp/downloads/" ++ basenameStr k))
            (emit (Effect.ffprobe ("/tmp/downloads/" ++ basenameStr k))
              (touch ("/tmp/downloads/" ++ basenameStr k)
                (emit (Effect.downloadFile env.s3Bucket k)
                  (emit (Effect.headObject env.s3Bucket k) St.init)))))))
      = (none, emit (Effect.s3Upload env.thumbnailBucket (thumbnailS3KeyOf k))
          (touch (thumbFile w.thumbName)
            (emit (Effect.ffmpegExtract ("/tmp/downloads/" ++ basenameStr k)
                (thumbFile w.thumbName) ((dms : ℚ) / 2000))
              (emit (Effect.ffprobe ("/tmp/downloads/" ++ basenameStr k))
                (emit (Effect.ffprobe ("/tmp/downloads/" ++ basenameStr k))
                  (touch ("/tmp/downloads/" ++ basenameStr k)
                    (emit (Effect.downloadFile env.s3Bucket k)
                      (emit (Effect.headObject env.s3Bucket k) St.init)))))))) := by
    rw [hs3]
    refine Prod.ext (uploadToS3_fail _ _ _ _ _) (uploadToS3_st _ _ _ _ _ _ hmem3)
  rw [heqU]
  simp only [getAuthenticatedService, hsid, hsec, hblob, if_true, credsValid, credsExpired,
    Bool.not_false, uploadToYoutube_eq, hterm, chunkResult, htv, Option.getD_some,
    hwf, Bool.false_eq_true, if_false, reportedStatus]
  refine ⟨_, rfl, ?_, ?_, ?_, fun r p b kk st2 => uploadToS3_fail r p b kk st2⟩
  · simp only [effects_ite, rm_effects, emit_effects]
    split <;> (try split) <;> (try split) <;>
      simp [emit, rm, touch, St.init, List.mem_append, List.mem_replicate]
  · simp only [effects_ite, rm_effects, emit_effects]
    split <;> (try split) <;> (try split) <;>
      simp [emit, rm, touch, St.init, List.mem_append, List.mem_replicate]
  · simp only [effects_ite, rm_effects, emit_effects]
    split <;> (try split) <;> (try split) <;>
      simp [emit, rm, touch, St.init, List.mem_append, List.mem_replicate]

/-- C10 witness: the fixture run whose thumbnail S3 upload fails. -/
theorem C10_thumbnail_upload_soft_witness :
    ∃ stf,
      lambdaHandler envA worldC10 eventA
        = (.ok ⟨200, .success ("videos/a.mp4") 1234 ("abc123")
            (youtubeUrlTemplate ++ "abc123") none (some 120000) none⟩, stf)
      ∧ Effect.s3Upload envA.thumbnailBucket (thumbnailS3KeyOf ("videos/a.mp4"))
          ∈ stf.effects
      ∧ Effect.secretsGet ("yt-secret") ∈ stf.effects
      ∧ Effect.nextChunk ∈ stf.effects
      ∧ (∀ r p b kk st2, (uploadToS3 r false p b kk st2).1 = none) :=
  C10_thumbnail_upload_soft envA worldC10 eventA ("videos/a.mp4") ("yt-secret") 1234
    blobA ("abc123") probeA ⟨"video", some (120 : ℚ)⟩ 120000
    rfl (by decide) rfl rfl
    (by simp [worldC10, worldA, probedDurationMs, probeA, firstVideoStream]
        norm_num [Rat.floor_def'])
    rfl rfl rfl (by decide) rfl rfl rfl (by decide) rfl (by decide) rfl

/-- C8 amended: the thumbnail's target remote key is derived
deterministically from the source key by appending the fixed suffix to the
basename (final path component) of the source key, and that is the key the
thumbnail upload actually uses. -/
theorem C8_thumbnail_key_amended (env : Env) (w : World) (ev : Event)
    (k sid : String) (n : Nat) (blob : SecretBlob) (vid : String)
    (pd : ProbeData) (vs : ProbeStream) (dms : Int)
    (hk : ev.s3Key = some k) (hk' : k ≠ "")
    (hh : w.headObject = .ok n) (hd : w.downloadOk = true)
    (hmain : probedDurationMs w.mainProbe = some dms)
    (htpr : w.thumbProbe = .ok pd) (hfv : firstVideoStream pd.streams = some vs)
    (heo : w.extractOk = true) (hts : 0 < w.thumbSize)
    (hsid : env.youtubeSecretId = some sid) (hsec : w.authSecret = .ok blob)
    (hblob : (truthy blob.token && truthy blob.refreshToken && truthy blob.tokenUri
        && truthy blob.clientId && truthy blob.clientSecret) = true)
    (hterm : w.terminal = .complete (some vid)) (hvid : vid ≠ "")
    (hwu : ev.webhookUrl = none) :
    ∃ tu stf,
      lambdaHandler env w ev
        = (.ok ⟨200, .success k n vid (youtubeUrlTemplate ++ vid) tu (some dms) none⟩,
           stf)
      ∧ Effect.s3Upload env.thumbnailBucket (thumbnailS3KeyOf k) ∈ stf.effects
      ∧ thumbnailS3KeyOf k = basenameStr k ++ thumbnailSuffix := by
  have htk : truthy (some k) = true := by simp [truthy, hk']
  have htv : truthy (some vid) = true := by simp [truthy, hvid]
  have hwf : truthy ev.webhookUrl = false := by rw [hwu]; rfl
  simp only [lambdaHandler, hk, pyBasename, Option.getD_some, htk, if_true]
  simp only [tryPipeline, hh, hd, if_true, getVideoDuration, hmain, htpr, heo]
  rw [generateThumbnail_success _ pd vs _ _ _ _ hfv hts (by simp [emit, touch, St.init])]
  simp only
  have hmem3 : thumbFile w.thumbName ∈ (touch (thumbFile w.thumbName)
      (emit (Effect.ffmpegExtract ("/tmp/downloads/" ++ basenameStr k)
          (thumbFile w.thumbName) ((dms : ℚ) / 2000))
        (emit (Effect.ffprobe ("/tmp/downloads/" ++ basenameStr k))
          (emit (Effect.ffprobe ("/tmp/downloads/" ++ basenameStr k))
            (touch ("/tmp/downloads/" ++ basenameStr k)
              (emit (Effect.downloadFile env.s3Bucket k)
                (emit (Effect.headObject env.s3Bucket k) St.init))))))).fs := by
    simp [emit, touch, St.init]
  rw [if_pos hmem3]
  rw [uploadToS3_st env.region w.s3UploadOk (thumbFile w.thumbName) env.thumbnailBucket
    (thumbnailS3KeyOf k) _ hmem3]
  simp only [getAuthenticatedService, hsid, hsec, hblob, if_true, credsValid, credsExpired,
    Bool.not_false, uploadToYoutube_eq, hterm, chunkResult, htv, Option.getD_some,
    hwf, Bool.false_eq_true, if_false, reportedStatus]
  refine ⟨_, _, rfl, ?_, rfl⟩
  simp only [effects_ite, rm_effects, emit_effects]
  split <;> (try split) <;> (try split) <;>
    simp [emit, rm, touch, St.init, List.mem_append, List.mem_replicate]

/-- C8 witness: the all-success fixture uses the basename-derived key. -/
theorem C8_thumbnail_key_amended_witness :
    ∃ tu stf,
      lambdaHandler envA worldA eventA
        = (.ok ⟨200, .success ("videos/a.mp4") 1234 ("abc123")
            (youtubeUrlTemplate ++ "abc123") tu (some 120000) none⟩, stf)
      ∧ Effect.s3Upload envA.thumbnailBucket (thumbnailS3KeyOf ("videos/a.mp4"))
          ∈ stf.effects
      ∧ thumbnailS3KeyOf ("videos/a.mp4") = basenameStr ("videos/a.mp4") ++ thumbnailSuffix :=
  C8_thumbnail_key_amended envA worldA eventA ("videos/a.mp4") ("yt-secret") 1234
    blobA ("abc123") probeA ⟨"video", some (120 : ℚ)⟩ 120000
    rfl (by decide) rfl rfl
    (by simp [worldA, probedDurationMs, probeA, firstVideoStream]
        norm_num [Rat.floor_def'])
    rfl rfl rfl (by decide) rfl rfl (by decide) rfl (by decide) rfl

/-- C9 amended: if the upload stage succeeded, webhook failures never
escalate — the invocation returns 200 and the reported delivery status is
`reportedStatus` of the POST outcome: null when the POST raises (or its
status is non-ok), while a signing-key retrieval failure alone only makes
the delivery unsigned, its status still being reported. -/
theorem C9_webhook_soft_failure (env : Env) (w : World) (ev : Event)
    (k sid u : String) (n : Nat) (blob : SecretBlob) (vid : String) (ef : PyErr)
    (hk : ev.s3Key = some k) (hk' : k ≠ "")
    (hh : w.headObject = .ok n) (hd : w.downloadOk = true)
    (hsid : env.youtubeSecretId = some sid) (hsec : w.authSecret = .ok blob)
    (hblob : (truthy blob.token && truthy blob.refreshToken && truthy blob.tokenUri
        && truthy blob.clientId && truthy blob.clientSecret) = true)
    (hterm : w.terminal = .complete (some vid)) (hvid : vid ≠ "")
    (hwu : ev.webhookUrl = some u) (hu : u ≠ "") :
    ∃ tu du stf,
      lambdaHandler env w ev
        = (.ok ⟨200, .success k n vid (youtubeUrlTemplate ++ vid) tu du
            (reportedStatus w.postResult.toOption)⟩, stf)
      ∧ (w.webhookSecretFetch = .error ef →
          Effect.webhookPost u [("Content-Type", "application/json")]
            (webhookPayloadJson vid tu du) ∈ stf.effects) := by
  have htk : truthy (some k) = true := by simp [truthy, hk']
  have htv : truthy (some vid) = true := by simp [truthy, hvid]
  have htu : truthy (some u) = true := by simp [truthy, hu]
  simp only [lambdaHandler, hk, pyBasename, Option.getD_some, htk, if_true]
  simp only [tryPipeline, hh, hd, if_true, getVideoDuration]
  generalize hG : generateThumbnail w.thumbName w.thumbProbe w.extractOk w.thumbSize
      ("/tmp/downloads/" ++ basenameStr k) (probedDurationMs w.mainProbe)
      (emit (Effect.ffprobe ("/tmp/downloads/" ++ basenameStr k))
        (touch ("/tmp/downloads/" ++ basenameStr k)
          (emit (Effect.downloadFile env.s3Bucket k)
            (emit (Effect.headObject env.s3Bucket k) St.init)))) = G
  obtain ⟨tp?, stG⟩ := G
  cases tp? with
  | some tp =>
    obtain ⟨htp, hmem, hfs⟩ := generateThumbnail_some _ _ _ _ _ _ _ tp (by rw [hG])
    rw [hG] at hmem hfs
    simp only at hmem hfs
    simp only
    rw [if_pos hmem]
    simp only [getAuthenticatedService, hsid, hsec, hblob, if_true, credsValid, credsExpired,
      Bool.not_false, uploadToYoutube_eq, hterm, chunkResult, htv, Option.getD_some,
      hwu, htu, webhookStep_val]
    refine ⟨_, _, _, rfl, ?_⟩
    intro hfe
    rw [hfe]
    have hm := fun st => webhookStep_unsigned env.webhookSecretId ef w.postResult u vid
      ((uploadToS3 env.region w.s3UploadOk tp env.thumbnailBucket (thumbnailS3KeyOf k) stG).1)
      (probedDurationMs w.mainProbe) st
    simp only [effects_ite, rm_effects, emit_effects]
    split <;> (try split) <;> simp [List.mem_append, hm]
  | none =>
    simp only
    simp only [getAuthenticatedService, hsid, hsec, hblob, if_true, credsValid, credsExpired,
      Bool.not_false, uploadToYoutube_eq, hterm, chunkResult, htv, Option.getD_some,
      hwu, htu, webhookStep_val]
    refine ⟨_, _, _, rfl, ?_⟩
    intro hfe
    rw [hfe]
    have hm := fun st => webhookStep_unsigned env.webhookSecretId ef w.postResult u vid
      (none : Option String) (probedDurationMs w.mainProbe) st
    simp only [effects_ite, rm_effects, emit_effects]
    split <;> (try split) <;> simp [List.mem_append, hm]

/-- C9 witness: the fixture run whose webhook POST raises. -/
theorem C9_webhook_soft_failure_witness :
    ∃ tu du stf,
      lambdaHandler envA worldC9w eventW
        = (.ok ⟨200, .success ("videos/a.mp4") 1234 ("abc123")
            (youtubeUrlTemplate ++ "abc123") tu du
            (reportedStatus worldC9w.postResult.toOption)⟩, stf)
      ∧ (worldC9w.webhookSecretFetch = .error (.clientError ("boom")) →
          Effect.webhookPost ("https://hook.example/x")
            [("Content-Type", "application/json")]
            (webhookPayloadJson ("abc123") tu du) ∈ stf.effects) :=
  C9_webhook_soft_failure envA worldC9w eventW ("videos/a.mp4") ("yt-secret")
    ("https://hook.example/x") 1234 blobA ("abc123") (.clientError ("boom"))
    rfl (by decide) rfl rfl rfl rfl (by decide) rfl (by decide) rfl (by decide)

end Uploader
